import Mathlib

/-!
Shallow embedding of the real-time synchronization engine of the qa-dashboard
repository: the Redux questions slice (`questionsSlice`) and the WebSocket
hook (`useWebSocket`).

Conventions of the embedding:
* The TS `status : string` field only ever carries one of the three enum
  values `Pending | Escalated | Answered` (data model, spec §3; the sort's
  priority map covers exactly these), so it is embedded as a three-value
  inductive type.
* `created_at` is a timestamp string in the source, always consumed through
  `new Date(created_at).getTime()`; it is embedded as that integer number of
  epoch milliseconds.
* `Array.prototype.sort` with a consistent comparator is a stable sort; for a
  total preorder a stable sort has a unique output, so it is embedded as
  `List.insertionSort` over the relation "comparator(a, b) <= 0".
* Immer drafts are embedded as plain functional record updates: each reducer
  becomes a total function `QuestionsState → payload → QuestionsState`.
-/

namespace QA

/-- Question status (data model: enum Pending | Escalated | Answered). -/
inductive Status
  | Escalated
  | Pending
  | Answered
deriving DecidableEq

/-- `Question` record of the questions slice. -/
structure Question where
  question_id : Nat
  message : String
  status : Status
  created_at : Int
  guest_name : Option String
  username : Option String
  response_count : Nat
deriving DecidableEq

/-- `Response` record of the questions slice. -/
structure Response where
  response_id : Nat
  question_id : Nat
  message : String
  created_at : Int
  guest_name : Option String
  username : Option String
deriving DecidableEq

/-- `QuestionsState`: the synchronized state store. -/
structure QuestionsState where
  questions : List Question
  selectedQuestion : Option Question
  responses : List Response
  loading : Bool
  error : Option String
deriving DecidableEq

/-- `initialState` of the slice. -/
def initialState : QuestionsState :=
  { questions := []
    selectedQuestion := none
    responses := []
    loading := false
    error := none }

/-- The `statusPriority` map inside `sortQuestions`:
`Escalated → 0, Pending → 1, Answered → 2`. -/
def statusPriority : Status → Nat
  | .Escalated => 0
  | .Pending => 1
  | .Answered => 2

/-- The comparator of `sortQuestions` returns
`statusPriority a - statusPriority b` when nonzero, otherwise
`getTime b.created_at - getTime a.created_at`.  `questionLE a b` holds exactly
when that comparator is `≤ 0` on `(a, b)`, i.e. when the stable sort may keep
`a` before `b`. -/
def questionLE (a b : Question) : Prop :=
  statusPriority a.status < statusPriority b.status ∨
    (statusPriority a.status = statusPriority b.status ∧ b.created_at ≤ a.created_at)

instance : DecidableRel questionLE := fun a b => by
  unfold questionLE; exact inferInstance

instance : IsTotal Question questionLE where
  total a b := by
    unfold questionLE
    rcases Nat.lt_trichotomy (statusPriority a.status) (statusPriority b.status) with h | h | h
    · exact Or.inl (Or.inl h)
    · rcases Int.le_total b.created_at a.created_at with h2 | h2
      · exact Or.inl (Or.inr ⟨h, h2⟩)
      · exact Or.inr (Or.inr ⟨h.symm, h2⟩)
    · exact Or.inr (Or.inl h)

instance : IsTrans Question questionLE where
  trans a b c hab hbc := by
    unfold questionLE at hab hbc ⊢
    rcases hab with h1 | ⟨h1, t1⟩ <;> rcases hbc with h2 | ⟨h2, t2⟩
    · exact Or.inl (Nat.lt_trans h1 h2)
    · exact Or.inl (Nat.lt_of_lt_of_eq h1 h2)
    · exact Or.inl (h1 ▸ h2)
    · exact Or.inr ⟨h1.trans h2, Int.le_trans t2 t1⟩

/-- `sortQuestions`: stable sort of the question list by the comparator
(status priority ascending, then `created_at` descending). -/
def sortQuestions (l : List Question) : List Question :=
  List.insertionSort questionLE l

/-- Reducer `addQuestion` (the `insertQuestion` store operation):
`state.questions = sortQuestions([action.payload, ...state.questions])`. -/
def addQuestion (s : QuestionsState) (q : Question) : QuestionsState :=
  { s with questions := sortQuestions (q :: s.questions) }

/-- Reducer `updateQuestion`: replaces (and re-sorts) the entry at the first
index whose `question_id` matches the payload, if any; independently replaces
`selectedQuestion` when it carries the payload's `question_id`. -/
def updateQuestion (s : QuestionsState) (q : Question) : QuestionsState :=
  let questions :=
    match s.questions.findIdx? (fun p => p.question_id == q.question_id) with
    | some i => sortQuestions (s.questions.set i q)
    | none => s.questions
  let selected :=
    match s.selectedQuestion with
    | some sq => if sq.question_id == q.question_id then some q else some sq
    | none => none
  { s with questions := questions, selectedQuestion := selected }

/-- `l.find(p)` followed by an in-place mutation of the found element:
rewrites the first element satisfying `p` with `f`, leaves the list unchanged
when no element satisfies `p`. -/
def modifyFirst (p : α → Bool) (f : α → α) : List α → List α
  | [] => []
  | x :: xs => if p x then f x :: xs else x :: modifyFirst p f xs

/-- Reducer `addResponse` (the `appendResponse` store operation): pushes the
payload onto `responses` and bumps `response_count` of the first question
whose `question_id` matches (`Array.prototype.find`), if any. -/
def addResponse (s : QuestionsState) (r : Response) : QuestionsState :=
  { s with
    responses := s.responses ++ [r]
    questions :=
      modifyFirst (fun q => q.question_id == r.question_id)
        (fun q => { q with response_count := q.response_count + 1 }) s.questions }

/-- Reducer `setSelectedQuestion`. -/
def setSelectedQuestion (s : QuestionsState) (v : Option Question) : QuestionsState :=
  { s with selectedQuestion := v }

/-- Reducer `clearError`. -/
def clearError (s : QuestionsState) : QuestionsState :=
  { s with error := none }

/-- `fetchQuestions.pending` handler. -/
def fetchQuestionsPending (s : QuestionsState) : QuestionsState :=
  { s with loading := true, error := none }

/-- `fetchQuestions.fulfilled` handler (the `applyQuestionList` operation). -/
def fetchQuestionsFulfilled (s : QuestionsState) (payload : List Question) : QuestionsState :=
  { s with loading := false, questions := sortQuestions payload }

/-- `fetchQuestions.rejected` handler. -/
def fetchQuestionsRejected (s : QuestionsState) (msg : String) : QuestionsState :=
  { s with loading := false, error := some msg }

/-- `createQuestion.pending` handler. -/
def createQuestionPending (s : QuestionsState) : QuestionsState :=
  { s with loading := true, error := none }

/-- `createQuestion.fulfilled` handler: only clears the loading flag
("Question will be added via WebSocket"). -/
def createQuestionFulfilled (s : QuestionsState) : QuestionsState :=
  { s with loading := false }

/-- `createQuestion.rejected` handler. -/
def createQuestionRejected (s : QuestionsState) (msg : String) : QuestionsState :=
  { s with loading := false, error := some msg }

/-- `updateQuestionStatus.pending` handler. -/
def updateQuestionStatusPending (s : QuestionsState) : QuestionsState :=
  { s with loading := true, error := none }

/-- `updateQuestionStatus.fulfilled` handler ("Update will come via WebSocket"). -/
def updateQuestionStatusFulfilled (s : QuestionsState) : QuestionsState :=
  { s with loading := false }

/-- `updateQuestionStatus.rejected` handler. -/
def updateQuestionStatusRejected (s : QuestionsState) (msg : String) : QuestionsState :=
  { s with loading := false, error := some msg }

/-- `fetchResponses.pending` handler. -/
def fetchResponsesPending (s : QuestionsState) : QuestionsState :=
  { s with loading := true, error := none }

/-- `fetchResponses.fulfilled` handler (the `replaceResponses` operation). -/
def fetchResponsesFulfilled (s : QuestionsState) (payload : List Response) : QuestionsState :=
  { s with loading := false, responses := payload }

/-- `fetchResponses.rejected` handler. -/
def fetchResponsesRejected (s : QuestionsState) (msg : String) : QuestionsState :=
  { s with loading := false, error := some msg }

/-- `createResponse.pending` handler. -/
def createResponsePending (s : QuestionsState) : QuestionsState :=
  { s with loading := true, error := none }

/-- `createResponse.fulfilled` handler: only clears the loading flag
("Response will be added via WebSocket"). -/
def createResponseFulfilled (s : QuestionsState) : QuestionsState :=
  { s with loading := false }

/-- `createResponse.rejected` handler. -/
def createResponseRejected (s : QuestionsState) (msg : String) : QuestionsState :=
  { s with loading := false, error := some msg }

/-! ### Message Router (`ws.onmessage` in the WebSocket hook)

The hook parses `event.data` as JSON and switches on `message.type`.  A decoded
message is embedded as a `type` string plus its `data` payload; a payload whose
shape is neither a `Question` nor a `Response` record is `MsgData.other`.
A raw frame that fails `JSON.parse` (the caught exception path) is embedded as
`none` at `onMessage`. -/

/-- The `data` field of a decoded push message. -/
inductive MsgData
  | question (q : Question)
  | response (r : Response)
  | other
deriving DecidableEq

/-- A push message that parsed as JSON: its `type` discriminator and `data`. -/
structure PushMessage where
  type : String
  data : MsgData
deriving DecidableEq

/-- The `switch (message.type)` dispatch of `ws.onmessage`: routes the three
known discriminators to the matching reducer; the `default` branch only logs.
The embedding dispatches only well-typed `data` payloads (the source is
dynamically typed there). -/
def dispatchMessage (s : QuestionsState) (m : PushMessage) : QuestionsState :=
  if m.type = "new_question" then
    match m.data with
    | .question q => addQuestion s q
    | _ => s
  else if m.type = "question_updated" then
    match m.data with
    | .question q => updateQuestion s q
    | _ => s
  else if m.type = "new_response" then
    match m.data with
    | .response r => addResponse s r
    | _ => s
  else s

/-- `ws.onmessage` as a store transformer: `none` models a frame on which
`JSON.parse` threw (the surrounding try/catch logs and drops it). -/
def onMessage (s : QuestionsState) (raw : Option PushMessage) : QuestionsState :=
  match raw with
  | none => s
  | some m => dispatchMessage s m

/-! ### Connection Manager (`connect` in the WebSocket hook) -/

/-- ECMAScript `String.prototype.startsWith`, embedded over the character
list (the built-in `String.startsWith` is not kernel-reducible). -/
def strStartsWith (s pre : String) : Bool :=
  pre.data.isPrefixOf s.data

/-- The environment `connect` reads: the configured API origin and
`window.location.protocol` of the hosting page; both fixed for a session. -/
structure WsEnv where
  apiUrl : String
  pageProtocol : String
deriving DecidableEq

/-- Mutable connection state of the hook: `isConnecting.current`, whether
`wsRef.current` is non-null, whether that socket is `OPEN`, and whether a
reconnect timer is pending. -/
structure ConnMgr where
  isConnecting : Bool
  hasSocket : Bool
  socketOpen : Bool
  reconnectScheduled : Bool
deriving DecidableEq

/-- The idle state before any connection attempt. -/
def ConnMgr.idle : ConnMgr :=
  { isConnecting := false
    hasSocket := false
    socketOpen := false
    reconnectScheduled := false }

/-- One call to `connect`: the mixed-content policy guard returns first
(warns, touches nothing); then the re-entrancy guard; then socket creation,
whose `catch` branch clears `isConnecting` and schedules a reconnect
(`creationFails` models whether `new WebSocket(...)` threw). -/
def connect (env : WsEnv) (creationFails : Bool) (c : ConnMgr) : ConnMgr :=
  if strStartsWith env.apiUrl "http://" && env.pageProtocol == "https:" then
    c
  else if c.isConnecting || (c.hasSocket && c.socketOpen) then
    c
  else if creationFails then
    { c with isConnecting := false, reconnectScheduled := true }
  else
    { c with isConnecting := true, hasSocket := true }

/-- A sequence of `connect` calls (one flag per call telling whether socket
creation would throw). -/
def connectMany (env : WsEnv) (fs : List Bool) (c : ConnMgr) : ConnMgr :=
  fs.foldl (fun st f => connect env f st) c

/-! ### Reachable store states

Closure of `initialState` under every reducer and every async-thunk handler of
the slice, with arbitrary payloads (payloads arrive from the server or the
push channel and are unconstrained at the store boundary). -/

/-- Store states reachable from `initialState` by dispatching slice actions. -/
inductive Reachable : QuestionsState → Prop
  | init : Reachable initialState
  | step_addQuestion {s} (q : Question) : Reachable s → Reachable (addQuestion s q)
  | step_updateQuestion {s} (q : Question) : Reachable s → Reachable (updateQuestion s q)
  | step_addResponse {s} (r : Response) : Reachable s → Reachable (addResponse s r)
  | step_setSelectedQuestion {s} (v : Option Question) :
      Reachable s → Reachable (setSelectedQuestion s v)
  | step_clearError {s} : Reachable s → Reachable (clearError s)
  | step_fetchQuestionsPending {s} : Reachable s → Reachable (fetchQuestionsPending s)
  | step_fetchQuestionsFulfilled {s} (payload : List Question) :
      Reachable s → Reachable (fetchQuestionsFulfilled s payload)
  | step_fetchQuestionsRejected {s} (msg : String) :
      Reachable s → Reachable (fetchQuestionsRejected s msg)
  | step_createQuestionPending {s} : Reachable s → Reachable (createQuestionPending s)
  | step_createQuestionFulfilled {s} : Reachable s → Reachable (createQuestionFulfilled s)
  | step_createQuestionRejected {s} (msg : String) :
      Reachable s → Reachable (createQuestionRejected s msg)
  | step_updateQuestionStatusPending {s} :
      Reachable s → Reachable (updateQuestionStatusPending s)
  | step_updateQuestionStatusFulfilled {s} :
      Reachable s → Reachable (updateQuestionStatusFulfilled s)
  | step_updateQuestionStatusRejected {s} (msg : String) :
      Reachable s → Reachable (updateQuestionStatusRejected s msg)
  | step_fetchResponsesPending {s} : Reachable s → Reachable (fetchResponsesPending s)
  | step_fetchResponsesFulfilled {s} (payload : List Response) :
      Reachable s → Reachable (fetchResponsesFulfilled s payload)
  | step_fetchResponsesRejected {s} (msg : String) :
      Reachable s → Reachable (fetchResponsesRejected s msg)
  | step_createResponsePending {s} : Reachable s → Reachable (createResponsePending s)
  | step_createResponseFulfilled {s} : Reachable s → Reachable (createResponseFulfilled s)
  | step_createResponseRejected {s} (msg : String) :
      Reachable s → Reachable (createResponseRejected s msg)

/-! ### Concrete fixtures used by witnesses and counterexamples -/

/-- A concrete pending question with identifier 1. -/
def qA : Question :=
  { question_id := 1
    message := "first"
    status := .Pending
    created_at := 100
    guest_name := none
    username := none
    response_count := 3 }

/-- A second question carrying the same identifier as `qA`. -/
def qB : Question :=
  { qA with message := "second", created_at := 200 }

/-- A concrete response addressed to question 1. -/
def rA : Response :=
  { response_id := 9
    question_id := 1
    message := "resp"
    created_at := 150
    guest_name := none
    username := none }

/-- A concrete response addressed to question 2 (matching no fixture
question). -/
def rB : Response :=
  { response_id := 7
    question_id := 2
    message := "stray"
    created_at := 160
    guest_name := none
    username := none }

/-! ### Helper lemmas -/

/-- `modifyFirst` is the identity when no element satisfies the predicate. -/
theorem modifyFirst_of_forall_not {p : α → Bool} {f : α → α} :
    ∀ {l : List α}, (∀ x ∈ l, p x = false) → modifyFirst p f l = l := by
  intro l h
  induction l with
  | nil => rfl
  | cons x xs ih =>
    have hx := h x (List.mem_cons_self x xs)
    simp [modifyFirst, hx, ih fun y hy => h y (List.mem_cons_of_mem x hy)]

/-- Mapping a guarded rewrite over a list where the guard never fires is the
identity. -/
theorem map_ite_of_forall_not {p : α → Bool} {f : α → α} :
    ∀ {l : List α}, (∀ x ∈ l, p x = false) →
      l.map (fun x => if p x then f x else x) = l := by
  intro l h
  induction l with
  | nil => rfl
  | cons x xs ih =>
    have hx := h x (List.mem_cons_self x xs)
    simp [hx, ih fun y hy => h y (List.mem_cons_of_mem x hy)]

/-- When at most one element satisfies the predicate, rewriting the first hit
coincides with rewriting every hit. -/
theorem modifyFirst_eq_map_of_countP_le_one {p : α → Bool} {f : α → α} :
    ∀ {l : List α}, l.countP p ≤ 1 →
      modifyFirst p f l = l.map (fun x => if p x then f x else x) := by
  intro l h
  induction l with
  | nil => rfl
  | cons x xs ih =>
    rw [List.countP_cons] at h
    cases hx : p x with
    | true =>
      have hrest : ∀ y ∈ xs, p y = false := by
        rw [hx] at h
        simp at h
        intro y hy
        simpa using h y hy
      simp [modifyFirst, hx, map_ite_of_forall_not hrest]
    | false =>
      have hxs : xs.countP p ≤ 1 := by
        rw [hx] at h
        simpa using h
      simp [modifyFirst, hx, ih hxs]

/-! ### Claim theorems -/

/-- **C1**: after `applyQuestionList` (the `fetchQuestions.fulfilled` handler),
every adjacent pair (a, b) of the stored question sequence satisfies
`statusPriority a.status ≤ statusPriority b.status` (Escalated 0, Pending 1,
Answered 2), and when the priorities tie, `a.created_at ≥ b.created_at`
(newest first). -/
theorem C1_applyQuestionList_sorted (s : QuestionsState) (l : List Question) :
    List.Chain'
      (fun a b => statusPriority a.status ≤ statusPriority b.status ∧
        (statusPriority a.status = statusPriority b.status → b.created_at ≤ a.created_at))
      (fetchQuestionsFulfilled s l).questions := by
  have hc : List.Chain' questionLE (sortQuestions l) :=
    List.Pairwise.chain' (List.sorted_insertionSort questionLE l)
  have himp : ∀ a b : Question, questionLE a b →
      statusPriority a.status ≤ statusPriority b.status ∧
        (statusPriority a.status = statusPriority b.status → b.created_at ≤ a.created_at) := by
    intro a b hab
    rcases hab with h | ⟨he, ht⟩
    · exact ⟨Nat.le_of_lt h, fun heq => absurd heq (Nat.ne_of_lt h)⟩
    · exact ⟨Nat.le_of_eq he, fun _ => ht⟩
  exact List.Chain'.imp himp hc

/-- **C2 counterexample**: `addQuestion` (the `insertQuestion` operation) does
not deduplicate: pushing `qB`, which carries the identifier of the already
stored `qA`, leaves two entries with identifier 1 — not "exactly one entry";
likewise calling it twice with the same payload leaves two entries. -/
theorem C2_counterexample :
    ((addQuestion { initialState with questions := [qA] } qB).questions.countP
        (fun q => q.question_id == qB.question_id) = 2) ∧
    ((addQuestion (addQuestion initialState qA) qA).questions.countP
        (fun q => q.question_id == qA.question_id) = 2) := by
  constructor <;> decide

/-- **C2 (amended)**: `insertQuestion` prepends the payload and re-sorts,
keeping any existing entry with the same identifier: the resulting collection
is a permutation of the payload consed onto the old collection, so the number
of entries carrying the payload's identifier grows by exactly one (a duplicate
entry is created instead of an overwrite). -/
theorem C2_amended_insertQuestion_prepends (s : QuestionsState) (q : Question) :
    (addQuestion s q).questions.Perm (q :: s.questions) ∧
    (addQuestion s q).questions.countP (fun p => p.question_id == q.question_id) =
      s.questions.countP (fun p => p.question_id == q.question_id) + 1 := by
  have hperm : (addQuestion s q).questions.Perm (q :: s.questions) := by
    simpa [addQuestion, sortQuestions] using
      List.perm_insertionSort questionLE (q :: s.questions)
  refine ⟨hperm, ?_⟩
  rw [hperm.countP_eq]
  simp [List.countP_cons]

/-- **C3**: provided at most one stored Question carries the response's
`question_id`, `appendResponse` (the `addResponse` reducer) bumps the
`response_count` of exactly the matching Question by one and keeps every
other entry as is; when no Question matches, the question collection is
unchanged. -/
theorem C3_appendResponse_count (s : QuestionsState) (r : Response)
    (hu : s.questions.countP (fun q => q.question_id == r.question_id) ≤ 1) :
    (addResponse s r).questions = s.questions.map
        (fun q => if q.question_id == r.question_id
          then { q with response_count := q.response_count + 1 } else q) ∧
    ((∀ q ∈ s.questions, q.question_id ≠ r.question_id) →
      (addResponse s r).questions = s.questions) := by
  constructor
  · exact modifyFirst_eq_map_of_countP_le_one hu
  · intro hnone
    apply modifyFirst_of_forall_not
    intro x hx
    simpa using hnone x hx

/-- Concrete store for the C3 witness: question 1 with `response_count = 3`. -/
def s3 : QuestionsState := { initialState with questions := [qA] }

/-- Witness for C3: question 1 (count 3) and response `rA` to question 1. -/
theorem C3_witness :
    (s3.questions.countP (fun q => q.question_id == rA.question_id) ≤ 1) ∧
    ((addResponse s3 rA).questions = s3.questions.map
        (fun q => if q.question_id == rA.question_id
          then { q with response_count := q.response_count + 1 } else q) ∧
     ((∀ q ∈ s3.questions, q.question_id ≠ rA.question_id) →
       (addResponse s3 rA).questions = s3.questions)) :=
  ⟨by decide, C3_appendResponse_count s3 rA (by decide)⟩

/-- **C4**: when the selected question carries the payload's identifier,
`updateQuestion` replaces the selected-question reference with the payload. -/
theorem C4_updateQuestion_refreshes_selected (s : QuestionsState) (q sq : Question)
    (hsel : s.selectedQuestion = some sq) (hid : sq.question_id = q.question_id) :
    (updateQuestion s q).selectedQuestion = some q := by
  simp [updateQuestion, hsel, hid]

/-- Concrete store for C4/C5: empty list, question 1 selected. -/
def s4 : QuestionsState := { initialState with selectedQuestion := some qA }

/-- Witness for C4: store with `qA` selected, updated with `qB` (same id). -/
theorem C4_witness :
    s4.selectedQuestion = some qA ∧ qA.question_id = qB.question_id ∧
    (updateQuestion s4 qB).selectedQuestion = some qB :=
  ⟨rfl, rfl, C4_updateQuestion_refreshes_selected s4 qB qA rfl rfl⟩

/-- **C5 counterexample**: with an empty question collection (so the payload's
identifier matches no stored Question) and a selected question carrying that
identifier, `updateQuestion` is not a no-op on the whole store: it still
rewrites the selected-question reference. -/
theorem C5_counterexample :
    s4.questions = [] ∧
    (updateQuestion s4 qB).selectedQuestion = some qB ∧
    updateQuestion s4 qB ≠ s4 := by
  refine ⟨rfl, ?_, ?_⟩ <;> decide

/-- **C5 (amended)**: when the payload's identifier matches no stored
Question, `updateQuestion` leaves the question collection, responses, loading
flag and error unchanged (and, being a total function, never throws); the
selected-question reference is still refreshed when it carries the payload's
identifier, and is unchanged otherwise. -/
theorem C5_amended_updateQuestion_notFound (s : QuestionsState) (q : Question)
    (h : ∀ p ∈ s.questions, p.question_id ≠ q.question_id) :
    (updateQuestion s q).questions = s.questions ∧
    (updateQuestion s q).responses = s.responses ∧
    (updateQuestion s q).loading = s.loading ∧
    (updateQuestion s q).error = s.error ∧
    (updateQuestion s q).selectedQuestion =
      (match s.selectedQuestion with
        | some sq => if sq.question_id == q.question_id then some q else some sq
        | none => none) := by
  have hfind : s.questions.findIdx? (fun p => p.question_id == q.question_id) = none := by
    rw [List.findIdx?_eq_none_iff]
    intro x hx
    simpa using h x hx
  simp [updateQuestion, hfind]

/-- Witness for the amended C5 at the concrete store `s4` and payload `qB`. -/
theorem C5_witness :
    (∀ p ∈ s4.questions, p.question_id ≠ qB.question_id) ∧
    ((updateQuestion s4 qB).questions = s4.questions ∧
     (updateQuestion s4 qB).responses = s4.responses ∧
     (updateQuestion s4 qB).loading = s4.loading ∧
     (updateQuestion s4 qB).error = s4.error ∧
     (updateQuestion s4 qB).selectedQuestion =
       (match s4.selectedQuestion with
         | some sq => if sq.question_id == qB.question_id then some qB else some sq
         | none => none)) :=
  ⟨by decide, C5_amended_updateQuestion_notFound s4 qB (by decide)⟩

/-- **C6**: the `createQuestion.fulfilled` and `createResponse.fulfilled`
handlers only clear the loading flag: no entity is inserted into the questions
or responses collections and every other store field is unchanged (the created
entity is expected to arrive via the push channel). -/
theorem C6_creation_fulfilled_only_clears_loading (s : QuestionsState) :
    (createQuestionFulfilled s).loading = false ∧
    (createQuestionFulfilled s).questions = s.questions ∧
    (createQuestionFulfilled s).responses = s.responses ∧
    (createQuestionFulfilled s).selectedQuestion = s.selectedQuestion ∧
    (createQuestionFulfilled s).error = s.error ∧
    (createResponseFulfilled s).loading = false ∧
    (createResponseFulfilled s).questions = s.questions ∧
    (createResponseFulfilled s).responses = s.responses ∧
    (createResponseFulfilled s).selectedQuestion = s.selectedQuestion ∧
    (createResponseFulfilled s).error = s.error :=
  ⟨rfl, rfl, rfl, rfl, rfl, rfl, rfl, rfl, rfl, rfl⟩

/-- **C7**: the message router leaves the store untouched on a frame that
fails to parse (`none`) or whose `type` discriminator is none of
`new_question`, `question_updated`, `new_response`; being a total function it
raises no exception. -/
theorem C7_router_drops_unknown (s : QuestionsState) (raw : Option PushMessage)
    (h : raw = none ∨ ∃ m, raw = some m ∧ m.type ≠ "new_question" ∧
      m.type ≠ "question_updated" ∧ m.type ≠ "new_response") :
    onMessage s raw = s := by
  rcases h with h | ⟨m, hm, h1, h2, h3⟩
  · rw [h]; rfl
  · subst hm
    simp [onMessage, dispatchMessage, h1, h2, h3]

/-- The spec's scenario payload: unknown push type "ping". -/
def pingMsg : PushMessage := { type := "ping", data := .other }

/-- Witness for C7: the "ping" frame leaves the initial store unchanged. -/
theorem C7_witness :
    (some pingMsg = none ∨ ∃ m, some pingMsg = some m ∧ m.type ≠ "new_question" ∧
      m.type ≠ "question_updated" ∧ m.type ≠ "new_response") ∧
    onMessage initialState (some pingMsg) = initialState :=
  ⟨Or.inr ⟨pingMsg, rfl, by decide, by decide, by decide⟩,
    C7_router_drops_unknown initialState (some pingMsg)
      (Or.inr ⟨pingMsg, rfl, by decide, by decide, by decide⟩)⟩

/-- **C8**: when the configured API origin is insecure `http://` and the page
is served over `https:`, `connect` is the identity on connection state: no
call, and no sequence of calls, creates a socket or schedules a reconnect —
starting idle, the channel stays permanently skipped for the session. -/
theorem C8_connect_mixed_content_skip (env : WsEnv)
    (h1 : strStartsWith env.apiUrl "http://" = true)
    (h2 : env.pageProtocol = "https:") :
    (∀ (creationFails : Bool) (c : ConnMgr), connect env creationFails c = c) ∧
    (∀ (fs : List Bool) (c : ConnMgr), connectMany env fs c = c) ∧
    (∀ fs : List Bool, (connectMany env fs ConnMgr.idle).hasSocket = false ∧
      (connectMany env fs ConnMgr.idle).reconnectScheduled = false) := by
  have hone : ∀ (creationFails : Bool) (c : ConnMgr), connect env creationFails c = c := by
    intro f c
    simp [connect, h1, h2]
  have hmany : ∀ (fs : List Bool) (c : ConnMgr), connectMany env fs c = c := by
    intro fs
    induction fs with
    | nil => intro c; rfl
    | cons f fs ih =>
      intro c
      rw [connectMany, List.foldl_cons, hone]
      exact ih c
  refine ⟨hone, hmany, fun fs => ?_⟩
  rw [hmany]
  exact ⟨rfl, rfl⟩

/-- The mixed-content session of the repository's default configuration:
`http://localhost:8000` API origin on an `https:` page. -/
def envMixed : WsEnv := { apiUrl := "http://localhost:8000", pageProtocol := "https:" }

/-- Witness for C8 at the concrete mixed-content environment. -/
theorem C8_witness :
    (strStartsWith envMixed.apiUrl "http://" = true ∧ envMixed.pageProtocol = "https:") ∧
    ((∀ (creationFails : Bool) (c : ConnMgr), connect envMixed creationFails c = c) ∧
     (∀ (fs : List Bool) (c : ConnMgr), connectMany envMixed fs c = c) ∧
     (∀ fs : List Bool, (connectMany envMixed fs ConnMgr.idle).hasSocket = false ∧
       (connectMany envMixed fs ConnMgr.idle).reconnectScheduled = false)) :=
  ⟨⟨by decide, rfl⟩, C8_connect_mixed_content_skip envMixed (by decide) rfl⟩

/-- A reachable store violating the response-scoping invariant: select
question 1, then receive a pushed response addressed to question 2. -/
def s9 : QuestionsState := addResponse (setSelectedQuestion initialState (some qA)) rB

/-- **C9 counterexample**: `s9` is reachable (via `setSelectedQuestion` then
`addResponse`), has question 1 selected, yet holds a response addressed to
question 2: the responses collection is not scoped to the selected question,
because `addResponse` appends regardless of the selection. -/
theorem C9_counterexample :
    Reachable s9 ∧ s9.selectedQuestion = some qA ∧
    rB ∈ s9.responses ∧ rB.question_id ≠ qA.question_id :=
  ⟨Reachable.step_addResponse rB (Reachable.step_setSelectedQuestion (some qA) Reachable.init),
    by decide, by decide, by decide⟩

/-- **C9 (amended)**: the responses collection is not scoped to the selected
question: `appendResponse` appends its payload unconditionally (whatever the
selection), and `setSelectedQuestion` changes only the selected reference,
leaving previously accumulated responses in place — so a reachable state may
hold responses addressed to questions other than the selected one. -/
theorem C9_amended_responses_not_scoped (s : QuestionsState) (r : Response)
    (v : Option Question) :
    (addResponse s r).responses = s.responses ++ [r] ∧
    (setSelectedQuestion s v).responses = s.responses ∧
    (setSelectedQuestion s v).selectedQuestion = v :=
  ⟨rfl, rfl, rfl⟩

/-- **C10**: the `fetchQuestions.fulfilled` handler replaces the question
collection with the sorted payload and clears the loading flag, leaving
`selectedQuestion`, `responses` and `error` untouched — in particular a full
refetch never refreshes the selected-question reference, which can therefore
diverge from the refetched entry carrying the same identifier (exhibited at a
concrete store in the final conjunct). -/
theorem C10_fetchQuestions_fulfilled_frame (s : QuestionsState) (payload : List Question) :
    (fetchQuestionsFulfilled s payload).loading = false ∧
    (fetchQuestionsFulfilled s payload).questions = sortQuestions payload ∧
    (fetchQuestionsFulfilled s payload).selectedQuestion = s.selectedQuestion ∧
    (fetchQuestionsFulfilled s payload).responses = s.responses ∧
    (fetchQuestionsFulfilled s payload).error = s.error ∧
    ((fetchQuestionsFulfilled s4 [qB]).selectedQuestion = some qA ∧
      qB ∈ (fetchQuestionsFulfilled s4 [qB]).questions ∧
      qB.question_id = qA.question_id ∧ qB ≠ qA) := by
  refine ⟨rfl, rfl, rfl, rfl, rfl, ?_, ?_, ?_, ?_⟩ <;> decide

end QA
